import Mathlib

/-!
Verification of the UnifiedPointerEvents gesture engine (`src/upe/upe.js`,
version 1.4.0) via a shallow embedding in Lean 4.

Modelling conventions, shared by every definition below:

* JavaScript numbers that hold wall-clock milliseconds (`Date.now()`,
  delays) are embedded as `Int`; coordinates, pressures and angles are
  embedded as `Rat` (exact arithmetic in place of IEEE doubles — every
  operation the engine performs on them is `+ - * /` and comparisons,
  which agree with the exact values here).
* A JavaScript field that may be `undefined`/`null` is embedded as an
  `Option`; the idiom `a || b` applied to numbers is embedded by
  `jsOrQ`/`jsOrI` below, which — exactly like JS — falls through to `b`
  both when `a` is missing and when `a` is `0` (this faithfulness matters:
  the `touch.identifier || 1` site really does send identifier `0` to `1`).
* DOM side effects that do not feed back into the engine state
  (`setPointerCapture` / `releasePointerCapture`, `preventDefault`,
  console logging) are omitted: the source wraps every one of them in
  `try { … } catch { … }` and ignores the result, so they cannot influence
  any value or branch embedded here.
-/

namespace UPE

/-- JS `a || b` for an optional number `a`: `undefined`, `null` and `0`
are all falsy, so they select `b`. -/
def jsOrQ (a : Option ℚ) (b : ℚ) : ℚ :=
  match a with
  | none => b
  | some x => if x = 0 then b else x

/-- JS `a || b` for an optional integer (used for identifiers and times). -/
def jsOrI (a : Option ℤ) (b : ℤ) : ℤ :=
  match a with
  | none => b
  | some x => if x = 0 then b else x

/-- The `this.defaults` object of the `UnifiedPointerEvents` constructor
(`upe.js` lines 28–44), numeric fields only. -/
structure Defaults where
  longClickDelay : ℤ
  doubleClickDelay : ℤ
  swipeThreshold : ℚ
  swipeTimeout : ℤ
  flingMinVelocity : ℚ
  flingDecay : ℚ
  touchOffsetX : ℚ
  touchOffsetY : ℚ
  rotateStepDeg : ℚ
  pinchZoomStep : ℚ
  minScale : ℚ
  maxScale : ℚ
  touchFingerDistance : ℚ
  throttleMs : ℤ

/-- The default configuration values from the constructor. -/
def defaults : Defaults :=
  { longClickDelay := 500
    doubleClickDelay := 300
    swipeThreshold := 50
    swipeTimeout := 300
    flingMinVelocity := 600
    flingDecay := 95/100
    touchOffsetX := 0
    touchOffsetY := -20
    rotateStepDeg := 5
    pinchZoomStep := 5/100
    minScale := 1/10
    maxScale := 10
    touchFingerDistance := 30
    throttleMs := 16 }

/-! ## Unified Event Normalizer (`_createUnifiedEvent`, `upe.js` 392–548)

The raw native event is embedded as an inductive whose four branches mirror
the source's dispatch chain: `type.startsWith('touch') && touches`, then
`type.startsWith('pointer'|'got'|'lost')`, then `type === 'wheel'`, and the
final `else` (plain mouse). -/

/-- A platform `Touch` object. All fields optional so that the source's
`|| fallback` reads (and the `touch || {}` empty-object fallback) can be
embedded exactly. -/
structure Touch where
  identifier : Option ℤ
  clientX : Option ℚ
  clientY : Option ℚ
  pageX : Option ℚ
  pageY : Option ℚ
  force : Option ℚ
deriving DecidableEq

/-- The empty object `{}` used by `touch = touch || touches[0] || {}`. -/
def emptyTouch : Touch :=
  { identifier := none, clientX := none, clientY := none
    pageX := none, pageY := none, force := none }

/-- The four phases of a touch-family event; `tend`/`tcancel` are the
phases whose `originalEvent.type` is `'touchend'` / `'touchcancel'`. -/
inductive TouchPhase
  | tstart
  | tmove
  | tend
  | tcancel
deriving DecidableEq

/-- Whether the phase reads from `changedTouches` (end/cancel) rather than
the active `touches` list (start/move). -/
def TouchPhase.usesChanged : TouchPhase → Bool
  | .tend => true
  | .tcancel => true
  | _ => false

/-- One raw native event, restricted to the fields `_createUnifiedEvent`
reads. -/
inductive RawEvent
  | touch (phase : TouchPhase) (touches changedTouches : List Touch)
  | pointer (pointerType : Option String) (pointerId : Option ℤ)
      (clientX clientY pageX pageY : Option ℚ)
      (isPrimary : Option Bool) (pressure : Option ℚ)
  | wheel (clientX clientY pageX pageY : Option ℚ)
  | mouse (clientX clientY pageX pageY : Option ℚ) (buttons : ℤ)

/-- The normalized record (geometry/identity fields of the unified event
object; the function-valued members forward to the raw event and carry no
state). -/
structure UnifiedEvent where
  pointerType : String
  pointerId : ℤ
  clientX : ℚ
  clientY : ℚ
  pageX : ℚ
  pageY : ℚ
  isPrimary : Bool
  pressure : ℚ
deriving DecidableEq

/-- The touch-selection loop of `_createUnifiedEvent`: when
`additionalData.trackingTouchId` is present, scan the list for a touch with
that identifier; then fall back to the first element, then to `{}`. -/
def selectTouch (tracking : Option ℤ) (list : List Touch) : Touch :=
  match tracking with
  | some tid =>
      match list.find? (fun t => t.identifier = some tid) with
      | some t => t
      | none => list.headD emptyTouch
  | none => list.headD emptyTouch

/-- `_createUnifiedEvent`, geometry/identity part. `pageXOffset` and
`pageYOffset` stand for the `window.pageXOffset`/`window.pageYOffset`
globals read by the `pageX/pageY` fallbacks. -/
def createUnifiedEvent (d : Defaults) (pageXOffset pageYOffset : ℚ)
    (e : RawEvent) (trackingTouchId : Option ℤ) : UnifiedEvent :=
  match e with
  | .touch phase touches changedTouches =>
      let t := selectTouch trackingTouchId
        (if phase.usesChanged then changedTouches else touches)
      let pointerId := jsOrI t.identifier 1
      let clientX := jsOrQ t.clientX 0
      let clientY := jsOrQ t.clientY 0
      let pageX := jsOrQ t.pageX (clientX + pageXOffset)
      let pageY := jsOrQ t.pageY (clientY + pageYOffset)
      { pointerType := "touch"
        pointerId := pointerId
        clientX := clientX + d.touchOffsetX
        clientY := clientY + d.touchOffsetY
        pageX := pageX + d.touchOffsetX
        pageY := pageY + d.touchOffsetY
        isPrimary := true
        pressure := jsOrQ t.force 0 }
  | .pointer pointerType pointerId clientX clientY pageX pageY isPrimary pressure =>
      let pt := match pointerType with
        | none => "mouse"
        | some s => if s = "" then "mouse" else s
      let cx := jsOrQ clientX 0
      let cy := jsOrQ clientY 0
      let px := jsOrQ pageX (cx + pageXOffset)
      let py := jsOrQ pageY (cy + pageYOffset)
      let offX := if pt = "touch" then d.touchOffsetX else 0
      let offY := if pt = "touch" then d.touchOffsetY else 0
      { pointerType := pt
        pointerId := jsOrI pointerId 1
        clientX := cx + offX
        clientY := cy + offY
        pageX := px + offX
        pageY := py + offY
        isPrimary := isPrimary.getD true
        pressure := jsOrQ pressure 0 }
  | .wheel clientX clientY pageX pageY =>
      let cx := jsOrQ clientX 0
      let cy := jsOrQ clientY 0
      { pointerType := "mouse"
        pointerId := 1
        clientX := cx
        clientY := cy
        pageX := jsOrQ pageX (cx + pageXOffset)
        pageY := jsOrQ pageY (cy + pageYOffset)
        isPrimary := true
        pressure := 0 }
  | .mouse clientX clientY pageX pageY buttons =>
      let cx := jsOrQ clientX 0
      let cy := jsOrQ clientY 0
      { pointerType := "mouse"
        pointerId := 1
        clientX := cx
        clientY := cy
        pageX := jsOrQ pageX (cx + pageXOffset)
        pageY := jsOrQ pageY (cy + pageYOffset)
        isPrimary := true
        pressure := if buttons = 0 then 0 else 1/2 }

/-! ## Listener Registry (`addEventListener`, `upe.js` 139–192, and
`_findExistingListener`, 201–211)

Elements and callbacks are opaque to the registry: it only ever compares
them with `===`. They are embedded as integers (`0` standing in for
`null`/`undefined` is *not* used — nullability is `Option`). The
listener id `` `${Date.now()}-${random}-${this.listenerCounter++}` `` is
embedded as the value of the strictly increasing `listenerCounter`, the
component that makes ids unique; the timestamp/random prefix does not
affect any comparison the engine performs. The gesture-specific setup
call (`_setupGestureEvents` / `_setupDragEvents` / …) is abstracted as an
argument `setup` giving the list of native subscriptions it installs for
an event type: claims C6 and C7 are about the registration control flow,
which returns or throws before `setup` runs. -/

/-- The `_validEventTypes` set (`upe.js` 72–78). -/
def validEventTypes : List String :=
  ["start", "move", "end", "cancel",
   "longclick", "doubleclick", "swipe", "fling",
   "dragstart", "drag", "dragend",
   "gotcapture", "lostcapture",
   "rotate", "pinchzoom"]

/-- The two throw sites of `addEventListener`: `Error('Missing required
parameters: element, eventType, callback')` and `Error('Unsupported event
type: …')`. The spec names these failure modes `InvalidArgumentError`
and `UnsupportedGestureError`. -/
inductive UPEError
  | invalidArgument
  | unsupportedGesture
deriving DecidableEq

/-- One entry of the `eventListeners` map: id, element, event type,
callback, and the native subscriptions its setup installed. -/
structure ListenerInfo where
  id : ℕ
  element : ℤ
  eventType : String
  callback : ℤ
  nativeListeners : List String
deriving DecidableEq

/-- The registry slice of the `UnifiedPointerEvents` instance state:
`eventListeners` (a JS `Map`, iterated in insertion order — embedded as a
list with new entries appended) and `listenerCounter`. -/
structure Registry where
  eventListeners : List ListenerInfo
  listenerCounter : ℕ
deriving DecidableEq

/-- `_findExistingListener`: first entry (in insertion order) whose
element, event type and callback all match. -/
def findExistingListener (r : Registry) (element : ℤ) (eventType : String)
    (callback : ℤ) : Option ℕ :=
  match r.eventListeners.find? (fun info =>
      info.element = element ∧ info.eventType = eventType ∧
      info.callback = callback) with
  | some info => some info.id
  | none => none

/-- `addEventListener element eventType callback`. The element and
callback arguments are `Option` so that the `!element || !eventType ||
!callback` null check can be stated; `eventType` may be absent or the
falsy empty string. Returns the thrown error or the listener id, paired
with the registry after the call (a throw leaves it untouched). -/
def addEventListener (setup : String → List String) (r : Registry)
    (element : Option ℤ) (eventType : Option String) (callback : Option ℤ) :
    Except UPEError ℕ × Registry :=
  match element, eventType, callback with
  | some el, some ty, some cb =>
      if ty = "" then (.error .invalidArgument, r)
      else if ty ∉ validEventTypes then (.error .unsupportedGesture, r)
      else
        match findExistingListener r el ty cb with
        | some existingId => (.ok existingId, r)
        | none =>
            let listenerId := r.listenerCounter
            let info : ListenerInfo :=
              { id := listenerId, element := el, eventType := ty
                callback := cb, nativeListeners := setup ty }
            (.ok listenerId,
             { eventListeners := r.eventListeners ++ [info]
               listenerCounter := r.listenerCounter + 1 })
  | _, _, _ => (.error .invalidArgument, r)

/-- Total number of native subscriptions currently installed by the
registry's listeners. -/
def Registry.totalNativeSubs (r : Registry) : ℕ :=
  (r.eventListeners.map (fun info => info.nativeListeners.length)).sum

/-- Registry well-formedness, maintained by `addEventListener`: every id
was produced by a past counter value, and no two entries share the
(element, eventType, callback) triple. -/
def Registry.WF (r : Registry) : Prop :=
  (∀ info ∈ r.eventListeners, info.id < r.listenerCounter) ∧
  r.eventListeners.Pairwise (fun a b =>
    ¬(a.element = b.element ∧ a.eventType = b.eventType ∧
      a.callback = b.callback))

/-! ## Timed event loop

LongClick and DoubleClick emit from `setTimeout` callbacks, so their
claims are about runs of the browser event loop. The loop is embedded
generically: a world holds the gesture state, the pending `setTimeout`
registrations (id, due time, which closure), and the gesture events
delivered to the callback so far. The driver repeatedly processes
whichever of (earliest pending timer, next raw input event) is due first;
timers sharing a due time fire in registration order, as the platform
guarantees. Each step is driven by one unit of fuel; the scenario
theorems below always supply enough fuel that the run ends with an empty
timer queue, so "no event is ever emitted" is about the complete run. -/

/-- One pending `setTimeout` registration: numeric handle (as returned to
`clearTimeout`), absolute due time, and which closure it runs. -/
structure Timer (κ : Type) where
  id : ℕ
  fireAt : ℤ
  kind : κ
deriving DecidableEq

/-- Event-loop world: gesture state `σ`, pending timers, the next timer
handle, and the emissions `ε` delivered so far (in order). -/
structure World (σ κ ε : Type) where
  state : σ
  timers : List (Timer κ)
  nextId : ℕ
  emitted : List ε
deriving DecidableEq

/-- `setTimeout`: register a closure `k` to run at absolute time
`fireAt`, returning the handle implicitly (handlers that keep it store
`w.nextId` themselves). -/
def World.schedule {σ κ ε : Type} (w : World σ κ ε) (fireAt : ℤ) (k : κ) :
    World σ κ ε :=
  { w with timers := w.timers ++ [⟨w.nextId, fireAt, k⟩]
           nextId := w.nextId + 1 }

/-- `clearTimeout tid`: drop the pending registration with that handle. -/
def World.clearTimer {σ κ ε : Type} (w : World σ κ ε) (tid : ℕ) :
    World σ κ ε :=
  { w with timers := w.timers.filter (fun t => t.id ≠ tid) }

/-- Deliver a gesture event to the registered callback. -/
def World.emit {σ κ ε : Type} (w : World σ κ ε) (e : ε) : World σ κ ε :=
  { w with emitted := w.emitted ++ [e] }

/-- Extract the pending timer with the smallest due time (first-registered
among equals, matching platform timer order), together with the remaining
queue. -/
def removeEarliest {κ : Type} : List (Timer κ) →
    Option (Timer κ × List (Timer κ))
  | [] => none
  | t :: ts =>
      match removeEarliest ts with
      | none => some (t, ts)
      | some (t', ts') =>
          if t'.fireAt < t.fireAt then some (t', t :: ts') else some (t, ts)

/-- The event-loop driver. `handleInput` is the native event handler the
engine registered; `handleTimer` runs a due `setTimeout` closure at its
due time; `inputTime` reads an input's delivery time. Inputs are assumed
time-sorted (the platform delivers them in order); a timer due strictly
before the next input fires first. -/
def runLoop {σ κ ε ι : Type} (handleInput : ι → World σ κ ε → World σ κ ε)
    (handleTimer : ℤ → κ → World σ κ ε → World σ κ ε)
    (inputTime : ι → ℤ) :
    ℕ → List ι → World σ κ ε → World σ κ ε
  | 0, _, w => w
  | n + 1, ins, w =>
      match removeEarliest w.timers, ins with
      | none, [] => w
      | some (t, ts), [] =>
          runLoop handleInput handleTimer inputTime n []
            (handleTimer t.fireAt t.kind { w with timers := ts })
      | none, i :: rest =>
          runLoop handleInput handleTimer inputTime n rest (handleInput i w)
      | some (t, ts), i :: rest =>
          if t.fireAt < inputTime i then
            runLoop handleInput handleTimer inputTime n (i :: rest)
              (handleTimer t.fireAt t.kind { w with timers := ts })
          else
            runLoop handleInput handleTimer inputTime n rest (handleInput i w)

/-! ## LongClick state machine (`_setupLongClickEvents`, `upe.js` 671–845)

The gesture handlers receive native events and re-extract `clientX`,
`clientY` and the pointer id with the same `event.clientX || touches[0]…`
chains embedded above; the inputs below carry the extracted values
directly. `setPointerCapture`/`releasePointerCapture` and `preventDefault`
are effect-free for the engine state and are omitted (see the header). -/

/-- The `state.longclick` object. -/
structure LCState where
  timerId : Option ℕ
  startX : ℚ
  startY : ℚ
  startTime : ℤ
  active : Bool
  triggered : Bool
  completed : Bool
  currentPointerId : Option ℤ
deriving DecidableEq

/-- The three `setTimeout` closures of the LongClick handlers: the armed
long-click timer (capturing the `pointerId` of its press), the 300 ms
post-end reset, and the 100 ms post-cancel reset. -/
inductive LCTimerKind
  | fire (pid : ℤ)
  | endReset
  | cancelReset
deriving DecidableEq

/-- The gesture payload of an emitted `longclick` event (`additionalData`
at `upe.js` 740–744), with the emission time. -/
structure LCEmit where
  time : ℤ
  duration : ℤ
  startX : ℚ
  startY : ℚ
deriving DecidableEq

abbrev LCWorld := World LCState LCTimerKind LCEmit

/-- The LongClick `startHandler`. `D` is `options.longClickDelay`. -/
def lcStart (D : ℤ) (now : ℤ) (pid : ℤ) (x y : ℚ) (w : LCWorld) : LCWorld :=
  let s := w.state
  if s.currentPointerId = some pid ∧ s.active = true then w
  else
    let s := if s.completed = true ∧ s.active = false then
      { s with completed := false } else s
    let s := { s with active := true, startX := x, startY := y,
                      startTime := now, triggered := false,
                      currentPointerId := some pid }
    let w := { w with state := s }
    let w := match s.timerId with
      | some tid =>
          { w.clearTimer tid with state := { s with timerId := none } }
      | none => w
    let handle := w.nextId
    let w := w.schedule (now + D) (.fire pid)
    { w with state := { w.state with timerId := some handle } }

/-- The LongClick `endHandler`. -/
def lcEnd (D : ℤ) (now : ℤ) (pid : ℤ) (w : LCWorld) : LCWorld :=
  let s := w.state
  if s.currentPointerId = some pid then
    if s.active = true then
      let clickDuration := now - s.startTime
      let w := match s.timerId with
        | some tid =>
            if clickDuration < D then
              { w.clearTimer tid with state := { s with timerId := none } }
            else w
        | none => w
      let w := { w with state := { w.state with active := false } }
      w.schedule (now + 300) .endReset
    else w
  else w

/-- The LongClick `cancelHandler`; `pid` is `event.pointerId`, which may
be `undefined` for touch-derived cancels. -/
def lcCancel (now : ℤ) (pid : Option ℤ) (w : LCWorld) : LCWorld :=
  let s := w.state
  if pid = none ∨ s.currentPointerId = pid then
    let w := match s.timerId with
      | some tid =>
          { w.clearTimer tid with state := { s with timerId := none } }
      | none => w
    let w := { w with state :=
      { w.state with active := false, currentPointerId := none } }
    w.schedule (now + 100) .cancelReset
  else w

/-- Running a due LongClick `setTimeout` closure at its due time. -/
def lcTimer (D : ℤ) (now : ℤ) : LCTimerKind → LCWorld → LCWorld
  | .fire pid, w =>
      let s := w.state
      if s.active = false ∨ s.triggered = true ∨ s.completed = true ∨
          ¬s.currentPointerId = some pid then w
      else
        let s := { s with triggered := true, completed := true }
        ({ w with state := s }).emit ⟨now, D, s.startX, s.startY⟩
  | .endReset, w =>
      let s := { w.state with currentPointerId := none }
      let s := if s.triggered = true then
        { s with triggered := false, completed := false } else s
      { w with state := s }
  | .cancelReset, w =>
      { w with state :=
        { w.state with triggered := false, completed := false } }

/-- One raw input to the LongClick listener: the phase, its delivery
time, and the extracted pointer id / coordinates. -/
inductive LCInput
  | start (t : ℤ) (pid : ℤ) (x y : ℚ)
  | endE (t : ℤ) (pid : ℤ)
  | cancelE (t : ℤ) (pid : Option ℤ)
deriving DecidableEq

def LCInput.time : LCInput → ℤ
  | .start t _ _ _ => t
  | .endE t _ => t
  | .cancelE t _ => t

def lcHandleInput (D : ℤ) : LCInput → LCWorld → LCWorld
  | .start t pid x y, w => lcStart D t pid x y w
  | .endE t pid, w => lcEnd D t pid w
  | .cancelE t pid, w => lcCancel t pid w

/-- A complete LongClick run: time-sorted inputs against the event loop. -/
def lcRun (D : ℤ) (fuel : ℕ) (ins : List LCInput) (w : LCWorld) : LCWorld :=
  runLoop (lcHandleInput D) (lcTimer D) LCInput.time fuel ins w

/-- The initial `state.longclick` (`upe.js` 566–577). -/
def lcInit : LCState :=
  { timerId := none, startX := 0, startY := 0, startTime := 0
    active := false, triggered := false, completed := false
    currentPointerId := none }

/-- Fresh listener world. Timer handles start at 1: browsers return
positive `setTimeout` handles, and the source tests `state.timerId` for
truthiness. -/
def lcWorld0 : LCWorld :=
  { state := lcInit, timers := [], nextId := 1, emitted := [] }

/-! ## DoubleClick state machine (`_setupDoubleClickEvents`, `upe.js`
850–995) -/

/-- The `state.doubleclick` object. -/
structure DCState where
  lastTapTime : ℤ
  startX : ℚ
  startY : ℚ
  active : Bool
  completed : Bool
  currentPointerId : Option ℤ
deriving DecidableEq

/-- The two `setTimeout` closures of the DoubleClick handlers: the 300 ms
reset scheduled right after an emission, and the `doubleClickDelay + 50`
bookkeeping reset scheduled on stream end. -/
inductive DCTimerKind
  | emitReset
  | endReset
deriving DecidableEq

/-- The gesture payload of an emitted `doubleclick` event
(`additionalData` at `upe.js` 880–884), with the emission time. -/
structure DCEmit where
  time : ℤ
  interval : ℤ
  startX : ℚ
  startY : ℚ
deriving DecidableEq

abbrev DCWorld := World DCState DCTimerKind DCEmit

/-- The DoubleClick `startHandler`. `W` is `options.doubleClickDelay`. -/
def dcStart (W : ℤ) (now : ℤ) (pid : ℤ) (x y : ℚ) (w : DCWorld) : DCWorld :=
  let s := w.state
  if s.currentPointerId = some pid ∧ s.active = true then w
  else
    let timeSinceLastTap := now - s.lastTapTime
    if timeSinceLastTap < W ∧ s.completed = false then
      let s := { s with completed := true }
      let w := ({ w with state := s }).emit
        ⟨now, timeSinceLastTap, s.startX, s.startY⟩
      let w := { w with state := { w.state with lastTapTime := 0 } }
      w.schedule (now + 300) .emitReset
    else
      { w with state :=
        { s with active := true, startX := x, startY := y,
                 lastTapTime := now, currentPointerId := some pid } }

/-- The DoubleClick `endHandler`. -/
def dcEnd (W : ℤ) (now : ℤ) (pid : ℤ) (w : DCWorld) : DCWorld :=
  let s := w.state
  if s.currentPointerId = some pid then
    if s.active = true then
      let w := { w with state := { s with active := false } }
      w.schedule (now + (W + 50)) .endReset
    else w
  else w

/-- The DoubleClick `cancelHandler`. -/
def dcCancel (pid : Option ℤ) (w : DCWorld) : DCWorld :=
  let s := w.state
  if pid = none ∨ s.currentPointerId = pid then
    { w with state := { s with active := false, currentPointerId := none } }
  else w

/-- Running a due DoubleClick `setTimeout` closure at its due time. -/
def dcTimer (W : ℤ) (now : ℤ) : DCTimerKind → DCWorld → DCWorld
  | .emitReset, w =>
      { w with state := { w.state with active := false, completed := false,
                                       currentPointerId := none } }
  | .endReset, w =>
      if now - w.state.lastTapTime > W then
        { w with state := { w.state with currentPointerId := none,
                                         lastTapTime := 0,
                                         completed := false } }
      else w

/-- One raw input to the DoubleClick listener. -/
inductive DCInput
  | start (t : ℤ) (pid : ℤ) (x y : ℚ)
  | endE (t : ℤ) (pid : ℤ)
  | cancelE (t : ℤ) (pid : Option ℤ)
deriving DecidableEq

def DCInput.time : DCInput → ℤ
  | .start t _ _ _ => t
  | .endE t _ => t
  | .cancelE t _ => t

def dcHandleInput (W : ℤ) : DCInput → DCWorld → DCWorld
  | .start t pid x y, w => dcStart W t pid x y w
  | .endE t pid, w => dcEnd W t pid w
  | .cancelE _ pid, w => dcCancel pid w

/-- A complete DoubleClick run. -/
def dcRun (W : ℤ) (fuel : ℕ) (ins : List DCInput) (w : DCWorld) : DCWorld :=
  runLoop (dcHandleInput W) (dcTimer W) DCInput.time fuel ins w

/-- The initial `state.doubleclick` (`upe.js` 583–591). -/
def dcInit : DCState :=
  { lastTapTime := 0, startX := 0, startY := 0
    active := false, completed := false, currentPointerId := none }

def dcWorld0 : DCWorld :=
  { state := dcInit, timers := [], nextId := 1, emitted := [] }

/-! ## Swipe state machine (`_setupSwipeEvents`, `upe.js` 998–1190)

The source computes `distance = Math.sqrt(dx*dx + dy*dy)` and compares
`distance >= swipeThreshold`. To stay in exact arithmetic the embedding
carries `distanceSq = dx*dx + dy*dy` and embeds the comparison through
`sqrtGe` below, which is equivalent: for `d ≥ 0`, `√d ≥ t` iff `t < 0`
or `t² ≤ d`. Likewise `speed = distance / deltaTime` is carried as
`speedSq = distanceSq / deltaTime²`. The 300 ms `completed`-reset timer
scheduled at the very end of the end/cancel handlers only matters across
recognition attempts and is outside the single-attempt scope embedded
here. -/

/-- `Math.sqrt d ≥ t`, expressed without square roots (exact for the
nonnegative `d` the engine produces). -/
def sqrtGe (d t : ℚ) : Bool :=
  decide (t < 0 ∨ t ^ 2 ≤ d)

/-- The `state.swipe` object. -/
structure SwipeState where
  active : Bool
  startX : ℚ
  startY : ℚ
  startTime : ℤ
  currentX : ℚ
  currentY : ℚ
  pointerId : Option ℤ
  completed : Bool
deriving DecidableEq

/-- The gesture payload of an emitted `swipe` event (`additionalData` at
`upe.js` 1112–1123), squared where the source stores a square root (see
the section header). -/
structure SwipeEmit where
  direction : String
  distanceSq : ℚ
  deltaX : ℚ
  deltaY : ℚ
  duration : ℤ
  speedSq : ℚ
  startX : ℚ
  startY : ℚ
  endX : ℚ
  endY : ℚ
deriving DecidableEq

/-- The initial `state.swipe` (`upe.js` 596–606). -/
def swipeInit : SwipeState :=
  { active := false, startX := 0, startY := 0, startTime := 0
    currentX := 0, currentY := 0, pointerId := none, completed := false }

/-- The Swipe `startHandler`. -/
def swipeStart (now : ℤ) (pid : ℤ) (x y : ℚ) (s : SwipeState) : SwipeState :=
  if s.pointerId = some pid ∧ s.active = true then s
  else
    { s with active := true, completed := false, pointerId := some pid
             startX := x, startY := y, currentX := x, currentY := y
             startTime := now }

/-- The Swipe `moveHandler`: updates the last-known position only. -/
def swipeMove (pid : ℤ) (x y : ℚ) (s : SwipeState) : SwipeState :=
  if s.pointerId = some pid then
    if s.active = false ∨ s.completed = true then s
    else { s with currentX := x, currentY := y }
  else s

/-- The Swipe `endHandler`: returns the state after the handler together
with the emitted event, if any. -/
def swipeEnd (threshold : ℚ) (timeout : ℤ) (now : ℤ) (pid : ℤ)
    (s : SwipeState) : SwipeState × Option SwipeEmit :=
  if s.pointerId = some pid then
    if s.active = false ∨ s.completed = true then (s, none)
    else
      let deltaTime := now - s.startTime
      let (s1, em) :=
        if deltaTime ≤ timeout then
          let deltaX := s.currentX - s.startX
          let deltaY := s.currentY - s.startY
          let distanceSq := deltaX * deltaX + deltaY * deltaY
          if sqrtGe distanceSq threshold = true then
            let direction :=
              if |deltaX| > |deltaY| then
                if deltaX > 0 then "right" else "left"
              else
                if deltaY > 0 then "down" else "up"
            ({ s with completed := true },
             some { direction := direction
                    distanceSq := distanceSq
                    deltaX := deltaX, deltaY := deltaY
                    duration := deltaTime
                    speedSq := distanceSq / ((deltaTime : ℚ)) ^ 2
                    startX := s.startX, startY := s.startY
                    endX := s.currentX, endY := s.currentY })
          else (s, none)
        else (s, none)
      ({ s1 with active := false, pointerId := none }, em)
  else (s, none)

/-! ## Drag state machine (`_setupDragEvents` / `_setupDragMoveEvents`,
`upe.js` 2034–2076 and 2199–2392) -/

/-- The element's bounding rectangle captured at drag start. -/
structure Rect where
  left : ℚ
  top : ℚ
  width : ℚ
  height : ℚ
deriving DecidableEq

/-- A validated `range` option: optional `[min,max]` pair per axis
(`_validateRangeConstraints`). -/
structure RangeSpec where
  x : Option (ℚ × ℚ)
  y : Option (ℚ × ℚ)
deriving DecidableEq

/-- The `state.drag` object, the fields the move handler touches. -/
structure DragState where
  active : Bool
  startX : ℚ
  startY : ℚ
  currentX : ℚ
  currentY : ℚ
  range : Option RangeSpec
  capturedPointer : Option ℤ
  elementRect : Option Rect
  cumulativeDeltaX : ℚ
  cumulativeDeltaY : ℚ
  currentDeltaX : ℚ
  currentDeltaY : ℚ
  lastMoveTime : ℤ
deriving DecidableEq

/-- The gesture payload of an emitted `drag` event (`additionalData` at
`upe.js` 2371–2387). -/
structure DragEmit where
  startX : ℚ
  startY : ℚ
  currentX : ℚ
  currentY : ℚ
  deltaX : ℚ
  deltaY : ℚ
  constrainedDeltaX : ℚ
  constrainedDeltaY : ℚ
  currentDeltaX : ℚ
  currentDeltaY : ℚ
  isOutOfBounds : Bool
  isOutOfBoundsX : Bool
  isOutOfBoundsY : Bool
  elementRect : Option Rect
deriving DecidableEq

/-- `mergedOptions.throttleMs` (`upe.js` 2043): JS
`options.throttle || this.defaults.throttleMs`. -/
def dragThrottleMs (throttleOpt : Option ℤ) : ℤ :=
  jsOrI throttleOpt defaults.throttleMs

/-- Per-axis clamping of `_setupDragMoveEvents.dragMoveHandler`
(`upe.js` 2343–2369): constrained delta and out-of-bounds flag for one
axis, given the validated range for that axis. -/
def clampAxis (axisRange : Option (ℚ × ℚ)) (total : ℚ) : ℚ × Bool :=
  match axisRange with
  | none => (total, false)
  | some (lo, hi) =>
      if total < lo then (lo, true)
      else if total > hi then (hi, true)
      else (total, false)

/-- Convenience accessor: the X range the move handler consults
(`state.range && state.range.x`). -/
def DragState.rangeX (s : DragState) : Option (ℚ × ℚ) :=
  match s.range with
  | none => none
  | some r => r.x

/-- Convenience accessor, Y axis. -/
def DragState.rangeY (s : DragState) : Option (ℚ × ℚ) :=
  match s.range with
  | none => none
  | some r => r.y

/-- The `dragMoveHandler` (`upe.js` 2296–2392). `throttleMs` is the
merged throttle option. -/
def dragMove (throttleMs : ℤ) (now : ℤ) (pid : ℤ) (x y : ℚ)
    (s : DragState) : DragState × Option DragEmit :=
  if s.active = false then (s, none)
  else if s.capturedPointer = some pid then
    if throttleMs > 0 ∧ now - s.lastMoveTime < throttleMs then (s, none)
    else
      let s := { s with lastMoveTime := now, currentX := x, currentY := y
                        currentDeltaX := x - s.startX
                        currentDeltaY := y - s.startY }
      let totalDeltaX := s.cumulativeDeltaX + s.currentDeltaX
      let totalDeltaY := s.cumulativeDeltaY + s.currentDeltaY
      let (cdx, obx) := clampAxis s.rangeX totalDeltaX
      let (cdy, oby) := clampAxis s.rangeY totalDeltaY
      (s, some { startX := s.startX, startY := s.startY
                 currentX := s.currentX, currentY := s.currentY
                 deltaX := totalDeltaX, deltaY := totalDeltaY
                 constrainedDeltaX := cdx, constrainedDeltaY := cdy
                 currentDeltaX := s.currentDeltaX
                 currentDeltaY := s.currentDeltaY
                 isOutOfBounds := obx || oby
                 isOutOfBoundsX := obx, isOutOfBoundsY := oby
                 elementRect := s.elementRect })
  else (s, none)

/-! ## Rotate state machine, two-finger touch source (`_setupRotateEvents`,
`upe.js` 1581–1723)

The source computes the two-finger angle with
`Math.atan2(dy, dx) * 180 / Math.PI`, a transcendental function with
range `(-180°, 180°]`. The embedding abstracts it as an explicit
function argument `atan2deg : ℚ → ℚ → ℚ` (first argument `dy`, second
`dx`); every claim about this machine concerns the angle-difference
logic downstream of `atan2`, which is embedded exactly. Theorems that
need the codomain `(-180, 180]` take it as a hypothesis on the two
angle values involved. -/

/-- One of the two tracked touches in `state.rotate`
(`state.rotate.touch1` / `.touch2`). -/
structure RTouch where
  id : Option ℤ
  startX : ℚ
  startY : ℚ
  currentX : ℚ
  currentY : ℚ
deriving DecidableEq

/-- The touch-rotation slice of `state.rotate`. -/
structure RotState where
  active : Bool
  touch1 : RTouch
  touch2 : RTouch
  centerX : ℚ
  centerY : ℚ
  initialAngle : ℚ
  lastAngle : ℚ
  totalRotation : ℚ
deriving DecidableEq

/-- A touch as read by the rotate handlers from `event.touches`:
identifier and client coordinates. -/
structure TouchIn where
  id : ℤ
  x : ℚ
  y : ℚ
deriving DecidableEq

/-- The gesture payload of an emitted `rotate` touch event
(`additionalData` at `upe.js` 1705–1719). -/
structure RotEmit where
  angle : ℚ
  rotation : ℚ
  deltaAngle : ℚ
  centerX : ℚ
  centerY : ℚ
  t1id : ℤ
  t1x : ℚ
  t1y : ℚ
  t2id : ℤ
  t2x : ℚ
  t2y : ℚ
deriving DecidableEq

/-- The shortest-path adjustment applied to a raw angle difference
(`upe.js` 1690–1695). -/
def wrapDelta (raw : ℚ) : ℚ :=
  if raw > 180 then raw - 360
  else if raw < -180 then raw + 360
  else raw

/-- The rotate `touchStartHandler` (`upe.js` 1582–1640). `fd` is
`options.touchFingerDistance`; the `Math.sqrt(dx*dx+dy*dy) <
touchFingerDistance` rejection is embedded through `sqrtGe`. -/
def rotTouchStart (atan2deg : ℚ → ℚ → ℚ) (fd : ℚ) (touches : List TouchIn)
    (s : RotState) : RotState :=
  match touches with
  | [t1, t2] =>
      let dx := t2.x - t1.x
      let dy := t2.y - t1.y
      if sqrtGe (dx * dx + dy * dy) fd = false then s
      else
        let initialAngle := atan2deg (t2.y - t1.y) (t2.x - t1.x)
        { s with active := true
                 touch1 := { id := some t1.id, startX := t1.x, startY := t1.y
                             currentX := t1.x, currentY := t1.y }
                 touch2 := { id := some t2.id, startX := t2.x, startY := t2.y
                             currentX := t2.x, currentY := t2.y }
                 centerX := (t1.x + t2.x) / 2
                 centerY := (t1.y + t2.y) / 2
                 initialAngle := initialAngle
                 lastAngle := initialAngle
                 totalRotation := 0 }
  | _ => s

/-- The identifier-matching step of the rotate `touchMoveHandler`
(`upe.js` 1655–1671): pair the two event touches with the tracked
`touch1`/`touch2`, order-independently, or reject. -/
def rotMatchTouches (s : RotState) (u1 u2 : TouchIn) :
    Option (TouchIn × TouchIn) :=
  if s.touch1.id = some u1.id ∧ s.touch2.id = some u2.id then
    some (u1, u2)
  else if s.touch2.id = some u1.id ∧ s.touch1.id = some u2.id then
    some (u2, u1)
  else none

/-- The rotate `touchMoveHandler` (`upe.js` 1643–1723). -/
def rotTouchMove (atan2deg : ℚ → ℚ → ℚ) (touches : List TouchIn)
    (s : RotState) : RotState × Option RotEmit :=
  if s.active = false then (s, none)
  else
    match touches with
    | [u1, u2] =>
        match rotMatchTouches s u1 u2 with
        | none => (s, none)
        | some (a, b) =>
            let s := { s with
              touch1 := { s.touch1 with currentX := a.x, currentY := a.y }
              touch2 := { s.touch2 with currentX := b.x, currentY := b.y } }
            let newCenterX := (a.x + b.x) / 2
            let newCenterY := (a.y + b.y) / 2
            let currentAngle := atan2deg (b.y - a.y) (b.x - a.x)
            let deltaAngle := wrapDelta (currentAngle - s.lastAngle)
            if |deltaAngle| < 1 then (s, none)
            else
              let s := { s with totalRotation := s.totalRotation + deltaAngle
                                lastAngle := currentAngle }
              (s, some { angle := currentAngle
                         rotation := s.totalRotation
                         deltaAngle := deltaAngle
                         centerX := newCenterX, centerY := newCenterY
                         t1id := a.id, t1x := a.x, t1y := a.y
                         t2id := b.id, t2x := b.x, t2y := b.y })
    | _ => (s, none)

/-- A session of move events fed to the rotate touch handler, collecting
the emitted events in order. -/
def rotRunMoves (atan2deg : ℚ → ℚ → ℚ) (moves : List (List TouchIn))
    (s : RotState) : RotState × List RotEmit :=
  match moves with
  | [] => (s, [])
  | m :: rest =>
      let r := rotTouchMove atan2deg m s
      let r2 := rotRunMoves atan2deg rest r.1
      (r2.1, r.2.toList ++ r2.2)

/-! # Theorems -/

/-- C1: For a LongClick listener with delay `D`: if a stream start occurs
at `t0` and no end/cancel for that stream arrives before `t0 + D`, the
complete event-loop run emits exactly one `longclick` event, at
`t0 + D`, carrying `duration = D` and the recorded start position; and
if the stream ends at `t0 + e` with `0 < e < D`, the armed timer is
cancelled and the complete run emits no `longclick` event at all (both
runs end with an empty timer queue). -/
theorem longclick_timing (D t0 : ℤ) (pid : ℤ) (x y : ℚ) :
    ((lcRun D 2 [.start t0 pid x y] lcWorld0).emitted = [⟨t0 + D, D, x, y⟩] ∧
     (lcRun D 2 [.start t0 pid x y] lcWorld0).timers = []) ∧
    (∀ e : ℤ, 0 < e → e < D →
      (lcRun D 4 [.start t0 pid x y, .endE (t0 + e) pid] lcWorld0).emitted = [] ∧
      (lcRun D 4 [.start t0 pid x y, .endE (t0 + e) pid] lcWorld0).timers = []) := by
  constructor
  · simp [lcRun, runLoop, removeEarliest, lcHandleInput, lcStart, lcTimer,
      World.schedule, World.clearTimer, World.emit, lcWorld0, lcInit, LCInput.time]
  · intro e he0 heD
    have h1 : ¬ (t0 + D < t0 + e) := by omega
    simp [lcRun, runLoop, removeEarliest, lcHandleInput, lcStart, lcEnd, lcTimer,
      World.schedule, World.clearTimer, World.emit, lcWorld0, lcInit, LCInput.time,
      h1, heD]

/-- Witness for `longclick_timing`: delay 500, start at 0, end at 100. -/
theorem longclick_timing_witness :
    (0 : ℤ) < 100 ∧ (100 : ℤ) < 500 ∧
    (lcRun 500 2 [.start 0 7 10 20] lcWorld0).emitted = [⟨0 + 500, 500, 10, 20⟩] ∧
    (lcRun 500 4 [.start 0 7 10 20, .endE (0 + 100) 7] lcWorld0).emitted = [] :=
  ⟨by decide, by decide, (longclick_timing 500 0 7 10 20).1.1,
   ((longclick_timing 500 0 7 10 20).2 100 (by decide) (by decide)).1⟩

/-- C2: For a DoubleClick listener with window 300 ms, with the first
tap's end delivered before the second start: two starts 200 ms apart
(first tap at `t1 ≥ 300`, so the quiescent `lastTapTime = 0` does not
fake an earlier tap — on real clocks `Date.now()` at the first tap is
far larger than the window) emit exactly one `doubleclick` whose
`interval` is 200 and whose `startX`/`startY` are the first tap's
recorded position; two starts 400 ms apart emit nothing, and the second
start is recorded as a fresh first tap (its position and time become the
stored tap). Tap durations `e1` range over the claim's scenario
envelope. -/
theorem doubleclick_windowing (t1 : ℤ) (pid1 pid2 : ℤ) (x1 y1 x2 y2 : ℚ)
    (ht : 300 ≤ t1) :
    (∀ e1 : ℤ, 0 < e1 → e1 < 200 →
      (dcRun 300 6 [.start t1 pid1 x1 y1, .endE (t1 + e1) pid1,
        .start (t1 + 200) pid2 x2 y2] dcWorld0).emitted
        = [⟨t1 + 200, 200, x1, y1⟩] ∧
      (dcRun 300 6 [.start t1 pid1 x1 y1, .endE (t1 + e1) pid1,
        .start (t1 + 200) pid2 x2 y2] dcWorld0).timers = []) ∧
    (∀ e1 : ℤ, 50 ≤ e1 → e1 ≤ 350 →
      (dcRun 300 5 [.start t1 pid1 x1 y1, .endE (t1 + e1) pid1,
        .start (t1 + 400) pid2 x2 y2] dcWorld0).emitted = [] ∧
      (dcRun 300 5 [.start t1 pid1 x1 y1, .endE (t1 + e1) pid1,
        .start (t1 + 400) pid2 x2 y2] dcWorld0).timers = [] ∧
      (dcRun 300 5 [.start t1 pid1 x1 y1, .endE (t1 + e1) pid1,
        .start (t1 + 400) pid2 x2 y2] dcWorld0).state.lastTapTime = t1 + 400 ∧
      (dcRun 300 5 [.start t1 pid1 x1 y1, .endE (t1 + e1) pid1,
        .start (t1 + 400) pid2 x2 y2] dcWorld0).state.startX = x2 ∧
      (dcRun 300 5 [.start t1 pid1 x1 y1, .endE (t1 + e1) pid1,
        .start (t1 + 400) pid2 x2 y2] dcWorld0).state.startY = y2 ∧
      (dcRun 300 5 [.start t1 pid1 x1 y1, .endE (t1 + e1) pid1,
        .start (t1 + 400) pid2 x2 y2] dcWorld0).state.active = true) := by
  have hq : ¬ (t1 < 300) := by omega
  constructor
  · intro e1 he0 he2
    have ho1 : ¬ (t1 + e1 + 350 < t1 + 200) := by omega
    have hgt : (300 : ℤ) < t1 + e1 + 350 := by omega
    rcases le_or_lt e1 150 with hcase | hcase
    · have hoB : ¬ (t1 + 200 + 300 < t1 + e1 + 350) := by omega
      simp [dcRun, runLoop, removeEarliest, dcHandleInput, dcStart, dcEnd, dcTimer,
        World.schedule, World.clearTimer, World.emit, dcWorld0, dcInit, DCInput.time,
        hq, ho1, hgt, hoB]
    · have hoB : t1 + 200 + 300 < t1 + e1 + 350 := by omega
      simp [dcRun, runLoop, removeEarliest, dcHandleInput, dcStart, dcEnd, dcTimer,
        World.schedule, World.clearTimer, World.emit, dcWorld0, dcInit, DCInput.time,
        hq, ho1, hgt, hoB]
  · intro e1 he0 he2
    have ho1 : ¬ (t1 + e1 + 350 < t1 + 400) := by omega
    have hne : ¬ ((300 : ℤ) < t1 + e1 + 350 - (t1 + 400)) := by omega
    simp [dcRun, runLoop, removeEarliest, dcHandleInput, dcStart, dcEnd, dcTimer,
      World.schedule, World.clearTimer, World.emit, dcWorld0, dcInit, DCInput.time,
      hq, ho1, hne]

/-- Witness for `doubleclick_windowing`: first tap at 1000 lasting
100 ms; second start at 1200 (one doubleclick, interval 200) resp. 1400
(none). -/
theorem doubleclick_windowing_witness :
    (300 : ℤ) ≤ 1000 ∧ (0 : ℤ) < 100 ∧ (100 : ℤ) < 200 ∧
    (50 : ℤ) ≤ 100 ∧ (100 : ℤ) ≤ 350 ∧
    (dcRun 300 6 [.start 1000 7 10 20, .endE (1000 + 100) 7,
      .start (1000 + 200) 8 30 40] dcWorld0).emitted
      = [⟨1000 + 200, 200, 10, 20⟩] ∧
    (dcRun 300 5 [.start 1000 7 10 20, .endE (1000 + 100) 7,
      .start (1000 + 400) 8 30 40] dcWorld0).emitted = [] :=
  ⟨by decide, by decide, by decide, by decide, by decide,
   ((doubleclick_windowing 1000 7 8 10 20 30 40 (by decide)).1 100
     (by decide) (by decide)).1,
   ((doubleclick_windowing 1000 7 8 10 20 30 40 (by decide)).2 100
     (by decide) (by decide)).1⟩

/-- C7: Registration fails fast and synchronously at call time: a
missing (or falsy-empty) element, event type, or callback makes
`addEventListener` throw the missing-parameters error (the spec's
`InvalidArgumentError`), and a present, non-empty event type outside the
supported set makes it throw the unsupported-type error (the spec's
`UnsupportedGestureError`); in every case the returned registry is the
input registry unchanged — no registration is created. (An empty-string
type is falsy in JS and is caught by the missing-parameters check, which
runs first.) -/
theorem register_validation (setup : String → List String) (r : Registry) :
    (∀ ty cb, addEventListener setup r none ty cb
      = (.error .invalidArgument, r)) ∧
    (∀ el cb, addEventListener setup r el none cb
      = (.error .invalidArgument, r)) ∧
    (∀ el ty, addEventListener setup r el ty none
      = (.error .invalidArgument, r)) ∧
    (∀ el cb, addEventListener setup r (some el) (some "") (some cb)
      = (.error .invalidArgument, r)) ∧
    (∀ el ty cb, ty ≠ "" → ty ∉ validEventTypes →
      addEventListener setup r (some el) (some ty) (some cb)
        = (.error .unsupportedGesture, r)) := by
  refine ⟨?_, ?_, ?_, ?_, ?_⟩
  · intro ty cb
    cases ty <;> cases cb <;> rfl
  · intro el cb
    cases el <;> cases cb <;> rfl
  · intro el ty
    cases el <;> cases ty <;> rfl
  · intro el cb
    rfl
  · intro el ty cb hne hmem
    simp [addEventListener, hne, hmem]

/-- Witness for `register_validation`: the unsupported type `"zoom"` on
an empty registry. -/
theorem register_validation_witness :
    ("zoom" : String) ≠ "" ∧ "zoom" ∉ validEventTypes ∧
    addEventListener (fun _ => []) ⟨[], 0⟩ (some 5) (some "zoom") (some 9)
      = (.error .unsupportedGesture, ⟨[], 0⟩) :=
  ⟨by decide, by decide,
   (register_validation (fun _ => []) ⟨[], 0⟩).2.2.2.2 5 "zoom" 9
     (by decide) (by decide)⟩

/-- C8 (failing input): the normalizer maps a platform touch identifier
of `0` to stream identity `1`, not `0` — the `touch.identifier || 1`
fallback treats the valid identifier `0` as falsy. Shown on both the
active-list path (`touchstart`) and the changed-list path (`touchend`);
a nonzero identifier on the same input is passed through unchanged. -/
theorem touch_identifier_zero :
    (createUnifiedEvent defaults 0 0
      (.touch .tstart
        [{ identifier := some 0, clientX := some 100, clientY := some 200
           pageX := some 100, pageY := some 200, force := none }] [])
      none).pointerId = 1 ∧
    (createUnifiedEvent defaults 0 0
      (.touch .tend []
        [{ identifier := some 0, clientX := some 100, clientY := some 200
           pageX := some 100, pageY := some 200, force := none }])
      (some 0)).pointerId = 1 ∧
    (createUnifiedEvent defaults 0 0
      (.touch .tstart
        [{ identifier := some 5, clientX := some 100, clientY := some 200
           pageX := some 100, pageY := some 200, force := none }] [])
      none).pointerId = 5 := by
  refine ⟨rfl, rfl, rfl⟩

/-- C10: With no per-listener configuration, the normalizer adds the
built-in default touch offset (`touchOffsetX = 0`, `touchOffsetY = -20`)
to both the client-space and page-space coordinates of every touch event
and of every pointer event whose `pointerType` is `'touch'` — so every
touch-derived Y coordinate is shifted 20 px upward — while pointer
events of any other type (mouse, pen, missing type), wheel events and
plain mouse events get the raw extracted coordinates with no offset. -/
theorem default_touch_offset :
    defaults.touchOffsetX = 0 ∧ defaults.touchOffsetY = -20 ∧
    (∀ (ph : TouchPhase) (ts cs : List Touch) (tid : Option ℤ) (pxo pyo : ℚ),
      (createUnifiedEvent defaults pxo pyo (.touch ph ts cs) tid).clientX
        = jsOrQ (selectTouch tid (if ph.usesChanged then cs else ts)).clientX 0 ∧
      (createUnifiedEvent defaults pxo pyo (.touch ph ts cs) tid).clientY
        = jsOrQ (selectTouch tid (if ph.usesChanged then cs else ts)).clientY 0 - 20 ∧
      (createUnifiedEvent defaults pxo pyo (.touch ph ts cs) tid).pageX
        = jsOrQ (selectTouch tid (if ph.usesChanged then cs else ts)).pageX
            (jsOrQ (selectTouch tid (if ph.usesChanged then cs else ts)).clientX 0 + pxo) ∧
      (createUnifiedEvent defaults pxo pyo (.touch ph ts cs) tid).pageY
        = jsOrQ (selectTouch tid (if ph.usesChanged then cs else ts)).pageY
            (jsOrQ (selectTouch tid (if ph.usesChanged then cs else ts)).clientY 0 + pyo) - 20) ∧
    (∀ (pid : Option ℤ) (cx cy px py : Option ℚ) (ip : Option Bool) (pr : Option ℚ)
        (pxo pyo : ℚ),
      (createUnifiedEvent defaults pxo pyo
        (.pointer (some "touch") pid cx cy px py ip pr) none).clientX = jsOrQ cx 0 ∧
      (createUnifiedEvent defaults pxo pyo
        (.pointer (some "touch") pid cx cy px py ip pr) none).clientY = jsOrQ cy 0 - 20 ∧
      (createUnifiedEvent defaults pxo pyo
        (.pointer (some "touch") pid cx cy px py ip pr) none).pageX
        = jsOrQ px (jsOrQ cx 0 + pxo) ∧
      (createUnifiedEvent defaults pxo pyo
        (.pointer (some "touch") pid cx cy px py ip pr) none).pageY
        = jsOrQ py (jsOrQ cy 0 + pyo) - 20) ∧
    (∀ (pt : String) (pid : Option ℤ) (cx cy px py : Option ℚ) (ip : Option Bool)
        (pr : Option ℚ) (pxo pyo : ℚ), pt ≠ "touch" → pt ≠ "" →
      (createUnifiedEvent defaults pxo pyo
        (.pointer (some pt) pid cx cy px py ip pr) none).clientX = jsOrQ cx 0 ∧
      (createUnifiedEvent defaults pxo pyo
        (.pointer (some pt) pid cx cy px py ip pr) none).clientY = jsOrQ cy 0 ∧
      (createUnifiedEvent defaults pxo pyo
        (.pointer (some pt) pid cx cy px py ip pr) none).pageX
        = jsOrQ px (jsOrQ cx 0 + pxo) ∧
      (createUnifiedEvent defaults pxo pyo
        (.pointer (some pt) pid cx cy px py ip pr) none).pageY
        = jsOrQ py (jsOrQ cy 0 + pyo)) ∧
    (∀ (pid : Option ℤ) (cx cy px py : Option ℚ) (ip : Option Bool) (pr : Option ℚ)
        (pxo pyo : ℚ),
      (createUnifiedEvent defaults pxo pyo
        (.pointer none pid cx cy px py ip pr) none).clientX = jsOrQ cx 0 ∧
      (createUnifiedEvent defaults pxo pyo
        (.pointer none pid cx cy px py ip pr) none).clientY = jsOrQ cy 0) ∧
    (∀ (cx cy px py : Option ℚ) (pxo pyo : ℚ),
      (createUnifiedEvent defaults pxo pyo (.wheel cx cy px py) none).clientX
        = jsOrQ cx 0 ∧
      (createUnifiedEvent defaults pxo pyo (.wheel cx cy px py) none).clientY
        = jsOrQ cy 0 ∧
      (createUnifiedEvent defaults pxo pyo (.wheel cx cy px py) none).pageX
        = jsOrQ px (jsOrQ cx 0 + pxo) ∧
      (createUnifiedEvent defaults pxo pyo (.wheel cx cy px py) none).pageY
        = jsOrQ py (jsOrQ cy 0 + pyo)) ∧
    (∀ (cx cy px py : Option ℚ) (b : ℤ) (pxo pyo : ℚ),
      (createUnifiedEvent defaults pxo pyo (.mouse cx cy px py b) none).clientX
        = jsOrQ cx 0 ∧
      (createUnifiedEvent defaults pxo pyo (.mouse cx cy px py b) none).clientY
        = jsOrQ cy 0 ∧
      (createUnifiedEvent defaults pxo pyo (.mouse cx cy px py b) none).pageX
        = jsOrQ px (jsOrQ cx 0 + pxo) ∧
      (createUnifiedEvent defaults pxo pyo (.mouse cx cy px py b) none).pageY
        = jsOrQ py (jsOrQ cy 0 + pyo)) := by
  refine ⟨rfl, rfl, ?_, ?_, ?_, ?_, ?_, ?_⟩
  · intro ph ts cs tid pxo pyo
    simp [createUnifiedEvent, defaults]
    ring_nf
    simp [sub_eq_add_neg]
  · intro pid cx cy px py ip pr pxo pyo
    simp [createUnifiedEvent, defaults, sub_eq_add_neg]
  · intro pt pid cx cy px py ip pr pxo pyo h1 h2
    simp [createUnifiedEvent, defaults, h1, h2]
  · intro pid cx cy px py ip pr pxo pyo
    simp [createUnifiedEvent, defaults]
  · intro cx cy px py pxo pyo
    simp [createUnifiedEvent, defaults]
  · intro cx cy px py b pxo pyo
    simp [createUnifiedEvent, defaults]

/-- Witness for `default_touch_offset`: a pen pointer event receives no
offset. -/
theorem default_touch_offset_witness :
    ("pen" : String) ≠ "touch" ∧ ("pen" : String) ≠ "" ∧
    (createUnifiedEvent defaults 3 4
      (.pointer (some "pen") (some 2) (some 10) (some 20) none none none none)
      none).clientY = jsOrQ (some 20) 0 :=
  ⟨by decide, by decide,
   ((default_touch_offset).2.2.2.2.1 "pen" (some 2) (some 10) (some 20)
     none none none none 3 4 (by decide) (by decide)).2.1⟩


/-- C3 (counterexample): the claim says exact ties between the absolute
horizontal and vertical displacement go to the horizontal direction. On
a swipe from (0,0) to (50,50) within threshold/timeout the deltas tie at
50 and the code emits direction `"down"` (the `absX > absY` comparison is
strict, so ties take the vertical branch), not `"right"` as the claim
predicts. -/
theorem swipe_tie_counterexample :
    ((swipeEnd 50 300 100 1 (swipeMove 1 50 50 (swipeStart 0 1 0 0 swipeInit))).2.map
      SwipeEmit.direction) = some "down" ∧ ("down" : String) ≠ "right" := by
  constructor
  · norm_num [swipeEnd, swipeMove, swipeStart, swipeInit, sqrtGe]
  · decide

/-- C3 (amended): on stream end for the tracked pointer mid-attempt, a
swipe event is emitted iff the elapsed time is ≤ `swipeTimeout` and the
Euclidean start-to-current distance is ≥ `swipeThreshold` (embedded via
`sqrtGe` on the squared distance); the direction compares absolute
horizontal vs vertical displacement with the vertical branch winning
exact ties (right/left by sign of `deltaX`, down/up by sign of
`deltaY`); the event carries the distance (as `distanceSq`), the
duration, and the derived speed (`speedSq = distanceSq / duration²`,
the exact-arithmetic image of `speed = distance / duration`); the
handler then clears `active` and the tracked pointer either way. -/
theorem swipe_end_spec (threshold : ℚ) (timeout now : ℤ) (pid : ℤ) (s : SwipeState)
    (h1 : s.pointerId = some pid) (h2 : s.active = true) (h3 : s.completed = false) :
    ((swipeEnd threshold timeout now pid s).2.isSome = true ↔
      (now - s.startTime ≤ timeout ∧
       sqrtGe ((s.currentX - s.startX) * (s.currentX - s.startX) +
               (s.currentY - s.startY) * (s.currentY - s.startY)) threshold = true)) ∧
    (∀ em, (swipeEnd threshold timeout now pid s).2 = some em →
      em.deltaX = s.currentX - s.startX ∧
      em.deltaY = s.currentY - s.startY ∧
      em.distanceSq = em.deltaX * em.deltaX + em.deltaY * em.deltaY ∧
      em.duration = now - s.startTime ∧
      em.speedSq = em.distanceSq / ((em.duration : ℚ)) ^ 2 ∧
      em.startX = s.startX ∧ em.startY = s.startY ∧
      em.endX = s.currentX ∧ em.endY = s.currentY ∧
      (|em.deltaX| > |em.deltaY| →
        em.direction = if em.deltaX > 0 then "right" else "left") ∧
      (¬ |em.deltaX| > |em.deltaY| →
        em.direction = if em.deltaY > 0 then "down" else "up")) ∧
    ((swipeEnd threshold timeout now pid s).1.active = false ∧
     (swipeEnd threshold timeout now pid s).1.pointerId = none) := by
  refine ⟨?_, ?_, ?_⟩
  · by_cases hdt : now - s.startTime ≤ timeout
    · by_cases hsq : sqrtGe ((s.currentX - s.startX) * (s.currentX - s.startX) +
          (s.currentY - s.startY) * (s.currentY - s.startY)) threshold = true
      · simp [swipeEnd, h1, h2, h3, hdt, hsq]
      · simp [swipeEnd, h1, h2, h3, hdt, hsq]
    · simp [swipeEnd, h1, h2, h3, hdt]
  · intro em hem
    by_cases hdt : now - s.startTime ≤ timeout
    · by_cases hsq : sqrtGe ((s.currentX - s.startX) * (s.currentX - s.startX) +
          (s.currentY - s.startY) * (s.currentY - s.startY)) threshold = true
      · simp [swipeEnd, h1, h2, h3, hdt, hsq] at hem
        subst hem
        by_cases hdir : |s.currentX - s.startX| > |s.currentY - s.startY|
        · simp [hdir]
        · simp [hdir]
      · simp [swipeEnd, h1, h2, h3, hdt, hsq] at hem
    · simp [swipeEnd, h1, h2, h3, hdt] at hem
  · by_cases hdt : now - s.startTime ≤ timeout
    · by_cases hsq : sqrtGe ((s.currentX - s.startX) * (s.currentX - s.startX) +
          (s.currentY - s.startY) * (s.currentY - s.startY)) threshold = true
      · simp [swipeEnd, h1, h2, h3, hdt, hsq]
      · simp [swipeEnd, h1, h2, h3, hdt, hsq]
    · simp [swipeEnd, h1, h2, h3, hdt]

end UPE

namespace UPE

/-- Witness for `swipe_end_spec`: start (0,0) at t=0, end (100,0) at
t=100 with threshold 50 and timeout 300 — an event is emitted. -/
theorem swipe_end_spec_witness :
    (swipeEnd 50 300 100 1 ⟨true, 0, 0, 0, 100, 0, some 1, false⟩).2.isSome = true := by
  have h := (swipe_end_spec 50 300 100 1 ⟨true, 0, 0, 0, 100, 0, some 1, false⟩
    rfl rfl rfl).1
  rw [h]
  refine ⟨by decide, ?_⟩
  norm_num [sqrtGe]

/-- Helper: characterization of the per-axis clamping of the drag move
handler for a well-formed `[lo, hi]` range. -/
theorem clampAxis_char (lo hi t : ℚ) (h : lo ≤ hi) :
    (clampAxis (some (lo, hi)) t).1 = max lo (min hi t) ∧
    ((clampAxis (some (lo, hi)) t).2 = true ↔ (t < lo ∨ hi < t)) := by
  unfold clampAxis
  rcases lt_or_le t lo with h1 | h1
  · have hm : min hi t = t := min_eq_right (h1.le.trans h)
    simp [h1, hm, max_eq_left h1.le]
  · rcases lt_or_le hi t with h2 | h2
    · simp [not_lt.mpr h1, h2, min_eq_left h2.le, max_eq_right h, not_lt.mpr h]
    · simp [not_lt.mpr h1, not_lt.mpr h2, min_eq_right h2, max_eq_right h1, h1, h2]

/-- C4: on every processed move of the tracked pointer the emitted drag
event reports the raw total delta (cumulative offset plus session
delta) as `deltaX`/`deltaY`; per axis, a configured `[min,max]` range
yields a constrained delta clamped into the range with
`isOutOfBoundsX`/`isOutOfBoundsY` true exactly when the raw total delta
lies outside it, and an axis with no configured range is passed through
unclamped with the flag false. -/
theorem drag_bounds_spec (T now : ℤ) (pid : ℤ) (x y : ℚ) (s : DragState)
    (h1 : s.active = true) (h2 : s.capturedPointer = some pid)
    (h3 : ¬ (T > 0 ∧ now - s.lastMoveTime < T)) :
    ∃ em, (dragMove T now pid x y s).2 = some em ∧
      em.deltaX = s.cumulativeDeltaX + (x - s.startX) ∧
      em.deltaY = s.cumulativeDeltaY + (y - s.startY) ∧
      (s.rangeX = none → em.constrainedDeltaX = em.deltaX ∧ em.isOutOfBoundsX = false) ∧
      (∀ lo hi, s.rangeX = some (lo, hi) → lo ≤ hi →
        em.constrainedDeltaX = max lo (min hi em.deltaX) ∧
        (em.isOutOfBoundsX = true ↔ (em.deltaX < lo ∨ hi < em.deltaX))) ∧
      (s.rangeY = none → em.constrainedDeltaY = em.deltaY ∧ em.isOutOfBoundsY = false) ∧
      (∀ lo hi, s.rangeY = some (lo, hi) → lo ≤ hi →
        em.constrainedDeltaY = max lo (min hi em.deltaY) ∧
        (em.isOutOfBoundsY = true ↔ (em.deltaY < lo ∨ hi < em.deltaY))) := by
  refine ⟨{ startX := s.startX, startY := s.startY
            currentX := x, currentY := y
            deltaX := s.cumulativeDeltaX + (x - s.startX)
            deltaY := s.cumulativeDeltaY + (y - s.startY)
            constrainedDeltaX :=
              (clampAxis s.rangeX (s.cumulativeDeltaX + (x - s.startX))).1
            constrainedDeltaY :=
              (clampAxis s.rangeY (s.cumulativeDeltaY + (y - s.startY))).1
            currentDeltaX := x - s.startX, currentDeltaY := y - s.startY
            isOutOfBounds :=
              (clampAxis s.rangeX (s.cumulativeDeltaX + (x - s.startX))).2 ||
              (clampAxis s.rangeY (s.cumulativeDeltaY + (y - s.startY))).2
            isOutOfBoundsX :=
              (clampAxis s.rangeX (s.cumulativeDeltaX + (x - s.startX))).2
            isOutOfBoundsY :=
              (clampAxis s.rangeY (s.cumulativeDeltaY + (y - s.startY))).2
            elementRect := s.elementRect }, ?_, rfl, rfl, ?_, ?_, ?_, ?_⟩
  · simp [dragMove, h1, h2, h3, DragState.rangeX, DragState.rangeY]
  · intro hrx
    simp [hrx, clampAxis]
  · intro lo hi hrx hle
    have hc := clampAxis_char lo hi (s.cumulativeDeltaX + (x - s.startX)) hle
    rw [hrx]
    exact hc
  · intro hry
    simp [hry, clampAxis]
  · intro lo hi hry hle
    have hc := clampAxis_char lo hi (s.cumulativeDeltaY + (y - s.startY)) hle
    rw [hry]
    exact hc

/-- Witness for `drag_bounds_spec`: range x = [-50, 50]; a raw total
delta of 80 is clamped to 50 with the flag set, a raw total delta of 30
passes through with the flag clear. -/
theorem drag_bounds_spec_witness :
    ((dragMove 16 100 1 80 0
      ⟨true, 0, 0, 0, 0, some ⟨some (-50, 50), none⟩, some 1, none,
        0, 0, 0, 0, 0⟩).2.map DragEmit.constrainedDeltaX = some 50) ∧
    ((dragMove 16 100 1 80 0
      ⟨true, 0, 0, 0, 0, some ⟨some (-50, 50), none⟩, some 1, none,
        0, 0, 0, 0, 0⟩).2.map DragEmit.isOutOfBoundsX = some true) ∧
    ((dragMove 16 100 1 30 0
      ⟨true, 0, 0, 0, 0, some ⟨some (-50, 50), none⟩, some 1, none,
        0, 0, 0, 0, 0⟩).2.map DragEmit.constrainedDeltaX = some 30) ∧
    ((dragMove 16 100 1 30 0
      ⟨true, 0, 0, 0, 0, some ⟨some (-50, 50), none⟩, some 1, none,
        0, 0, 0, 0, 0⟩).2.map DragEmit.isOutOfBoundsX = some false) := by
  obtain ⟨em, hsome, hdx, -, -, hxs, -, -⟩ :=
    drag_bounds_spec 16 100 1 80 0
      ⟨true, 0, 0, 0, 0, some ⟨some (-50, 50), none⟩, some 1, none,
        0, 0, 0, 0, 0⟩ rfl rfl (by decide)
  obtain ⟨em', hsome', hdx', -, -, hxs', -, -⟩ :=
    drag_bounds_spec 16 100 1 30 0
      ⟨true, 0, 0, 0, 0, some ⟨some (-50, 50), none⟩, some 1, none,
        0, 0, 0, 0, 0⟩ rfl rfl (by decide)
  obtain ⟨hcx, hob⟩ := hxs (-50) 50 rfl (by norm_num)
  obtain ⟨hcx', hob'⟩ := hxs' (-50) 50 rfl (by norm_num)
  norm_num at hdx hdx'
  have hc50 : em.constrainedDeltaX = 50 := by rw [hcx, hdx]; norm_num
  have ht : em.isOutOfBoundsX = true :=
    hob.mpr (Or.inr (by rw [hdx]; norm_num))
  have hc30 : em'.constrainedDeltaX = 30 := by rw [hcx', hdx']; norm_num
  have h30 : ¬ (em'.deltaX < -50 ∨ 50 < em'.deltaX) := by rw [hdx']; norm_num
  have hf : em'.isOutOfBoundsX = false := by
    rcases Bool.eq_false_or_eq_true em'.isOutOfBoundsX with hb | hb
    · exact absurd (hob'.mp hb) h30
    · exact hb
  refine ⟨?_, ?_, ?_, ?_⟩
  · rw [hsome]
    simp [hc50]
  · rw [hsome]
    simp [ht]
  · rw [hsome']
    simp [hc30]
  · rw [hsome']
    simp [hf]

/-- C9: a move of the tracked pointer arriving less than `throttleMs`
after the previously processed move (or drag start) is dropped whole:
no drag event is emitted and the state — current position, session
deltas, `lastMoveTime` — is untouched; the default throttle is 16 ms and
the `throttle` option overrides it (any nonzero value; JS `||` semantics
send 0 to the default). -/
theorem drag_throttle_spec (T now : ℤ) (pid : ℤ) (x y : ℚ) (s : DragState)
    (h1 : s.active = true) (h2 : s.capturedPointer = some pid)
    (h3 : T > 0) (h4 : now - s.lastMoveTime < T) :
    dragMove T now pid x y s = (s, none) ∧
    defaults.throttleMs = 16 ∧
    dragThrottleMs none = 16 ∧
    (∀ v : ℤ, v ≠ 0 → dragThrottleMs (some v) = v) := by
  refine ⟨?_, rfl, rfl, ?_⟩
  · simp [dragMove, h1, h2, h3, h4]
  · intro v hv
    simp [dragThrottleMs, jsOrI, hv]

end UPE

namespace UPE

/-- Witness for `drag_throttle_spec`: a move 10 ms after the last
processed move with the default 16 ms throttle is dropped. -/
theorem drag_throttle_spec_witness :
    dragMove 16 10 1 80 0 ⟨true, 0, 0, 0, 0, none, some 1, none, 0, 0, 0, 0, 0⟩
      = (⟨true, 0, 0, 0, 0, none, some 1, none, 0, 0, 0, 0, 0⟩, none) :=
  (drag_throttle_spec 16 10 1 80 0
    ⟨true, 0, 0, 0, 0, none, some 1, none, 0, 0, 0, 0, 0⟩
    rfl rfl (by decide) (by decide)).1


/-- C6: a second `addEventListener` call with an identical
(element, eventType, callback) triple returns exactly the id returned by
the first successful call and leaves the registry — entries and their
installed native subscriptions — completely unchanged; and registration
preserves the invariant that at most one registration exists per triple
(and that all ids are below the counter). -/
theorem register_idempotent (setup : String → List String) (r : Registry)
    (el cb : ℤ) (ty : String) (id : ℕ) (r' : Registry) (hwf : r.WF)
    (h : addEventListener setup r (some el) (some ty) (some cb) = (.ok id, r')) :
    addEventListener setup r' (some el) (some ty) (some cb) = (.ok id, r') ∧
    r'.WF := by
  by_cases h0 : ty = ""
  · simp [addEventListener, h0] at h
  · by_cases h1 : ty ∉ validEventTypes
    · simp [addEventListener, h0, h1] at h
    · rw [not_not] at h1
      cases hf : findExistingListener r el ty cb with
      | some eid =>
          simp [addEventListener, h0, h1, hf] at h
          obtain ⟨hid, hr⟩ := h
          subst hid
          subst hr
          constructor
          · simp [addEventListener, h0, h1, hf]
          · exact hwf
      | none =>
          have hfind : r.eventListeners.find?
              (fun info => decide (info.element = el ∧ info.eventType = ty ∧
                info.callback = cb)) = none := by
            cases hfind : r.eventListeners.find?
                (fun info => decide (info.element = el ∧ info.eventType = ty ∧
                  info.callback = cb)) with
            | none => rfl
            | some u =>
                rw [findExistingListener, hfind] at hf
                exact absurd hf (by simp)
          simp [addEventListener, h0, h1, hf] at h
          obtain ⟨hid, hr⟩ := h
          have hinfo : r'.eventListeners = r.eventListeners ++
              [{ id := r.listenerCounter, element := el, eventType := ty
                 callback := cb, nativeListeners := setup ty }] := by
            rw [← hr]
          have hcnt : r'.listenerCounter = r.listenerCounter + 1 := by
            rw [← hr]
          constructor
          · have hfind' : findExistingListener r' el ty cb
                = some r.listenerCounter := by
              rw [findExistingListener, hinfo, List.find?_append, hfind]
              simp
            simp [addEventListener, h0, h1, hfind', ← hid]
          · constructor
            · intro info' hmem
              rw [hinfo] at hmem
              rw [hcnt]
              rcases List.mem_append.mp hmem with hold | hnew
              · exact Nat.lt_succ_of_lt (hwf.1 info' hold)
              · simp at hnew
                rw [hnew]
                exact Nat.lt_succ_self _
            · rw [hinfo]
              refine List.pairwise_append.mpr ⟨hwf.2, List.pairwise_singleton _ _, ?_⟩
              intro a ha b hb
              simp at hb
              rw [hb]
              intro hcontra
              have := List.find?_eq_none.mp hfind a ha
              simp at this
              exact absurd hcontra.2.2 (this hcontra.1 hcontra.2.1)

/-- Witness for `register_idempotent`: registering `longclick` on an
empty registry and repeating the call returns id 0 and the unchanged
one-entry registry. -/
theorem register_idempotent_witness :
    addEventListener (fun _ => ["pointerdown", "pointerup"])
      ⟨[⟨0, 5, "longclick", 9, ["pointerdown", "pointerup"]⟩], 1⟩
      (some 5) (some "longclick") (some 9)
      = (.ok 0, ⟨[⟨0, 5, "longclick", 9, ["pointerdown", "pointerup"]⟩], 1⟩) :=
  (register_idempotent (fun _ => ["pointerdown", "pointerup"]) ⟨[], 0⟩ 5 9
    "longclick" 0 ⟨[⟨0, 5, "longclick", 9, ["pointerdown", "pointerup"]⟩], 1⟩
    ⟨by simp, List.Pairwise.nil⟩ rfl).1


/-- Helper: the wrap adjustment changes a raw difference by a multiple
of 360° (0 or ±360). -/
theorem wrapDelta_cases (raw : ℚ) :
    wrapDelta raw = raw ∨ wrapDelta raw = raw - 360 ∨ wrapDelta raw = raw + 360 := by
  unfold wrapDelta
  split_ifs <;> simp

/-- Helper: for two angles in the `atan2` codomain `(-180°, 180°]` the
wrapped difference lies in `[-180°, 180°]` — a boundary crossing never
produces a ±360°-sized delta. -/
theorem wrapDelta_range (c l : ℚ) (hc1 : -180 < c) (hc2 : c ≤ 180)
    (hl1 : -180 < l) (hl2 : l ≤ 180) :
    -180 ≤ wrapDelta (c - l) ∧ wrapDelta (c - l) ≤ 180 := by
  unfold wrapDelta
  split_ifs <;> constructor <;> linarith

/-- Helper: every rotate touch-move either emits nothing and preserves
the accumulated rotation, or emits one event whose `deltaAngle` is
exactly what it adds to the accumulated rotation and whose `rotation`
field is the updated accumulator. -/
theorem rotTouchMove_total (f : ℚ → ℚ → ℚ) (ts : List TouchIn) (s : RotState) :
    ((rotTouchMove f ts s).2 = none ∧
     (rotTouchMove f ts s).1.totalRotation = s.totalRotation) ∨
    (∃ em, (rotTouchMove f ts s).2 = some em ∧
      (rotTouchMove f ts s).1.totalRotation = s.totalRotation + em.deltaAngle ∧
      em.rotation = s.totalRotation + em.deltaAngle) := by
  by_cases ha : s.active = false
  · left
    simp [rotTouchMove, ha]
  · rcases ts with _ | ⟨u1, _ | ⟨u2, _ | ⟨u3, rest⟩⟩⟩
    · left
      simp [rotTouchMove, ha]
    · left
      simp [rotTouchMove, ha]
    · cases hm : rotMatchTouches s u1 u2 with
      | none =>
          left
          simp [rotTouchMove, ha, hm]
      | some p =>
          obtain ⟨a, b⟩ := p
          by_cases habs : |wrapDelta (f (b.y - a.y) (b.x - a.x) - s.lastAngle)| < 1
          · left
            simp [rotTouchMove, ha, hm, habs]
          · right
            refine ⟨{ angle := f (b.y - a.y) (b.x - a.x)
                      rotation := s.totalRotation +
                        wrapDelta (f (b.y - a.y) (b.x - a.x) - s.lastAngle)
                      deltaAngle :=
                        wrapDelta (f (b.y - a.y) (b.x - a.x) - s.lastAngle)
                      centerX := (a.x + b.x) / 2, centerY := (a.y + b.y) / 2
                      t1id := a.id, t1x := a.x, t1y := a.y
                      t2id := b.id, t2x := b.x, t2y := b.y }, ?_, ?_, ?_⟩ <;>
              simp [rotTouchMove, ha, hm, habs]
    · left
      simp [rotTouchMove, ha]

/-- Helper: over a session of rotate touch-moves, the accumulator equals
the starting value plus the sum of all emitted deltas, and each emitted
event's `rotation` is the running partial sum at its position. -/
theorem rotRunMoves_rotation (f : ℚ → ℚ → ℚ) :
    ∀ (moves : List (List TouchIn)) (s : RotState),
    ((rotRunMoves f moves s).1.totalRotation
      = s.totalRotation + (((rotRunMoves f moves s).2).map RotEmit.deltaAngle).sum) ∧
    (∀ i (h : i < (rotRunMoves f moves s).2.length),
      ((rotRunMoves f moves s).2.get ⟨i, h⟩).rotation
        = s.totalRotation
          + ((((rotRunMoves f moves s).2).take (i + 1)).map RotEmit.deltaAngle).sum) := by
  intro moves
  induction moves with
  | nil =>
      intro s
      constructor
      · simp [rotRunMoves]
      · intro i h
        simp [rotRunMoves] at h
  | cons m rest ih =>
      intro s
      rcases rotTouchMove_total f m s with ⟨hn, ht⟩ | ⟨em, hs, ht, hrot⟩
      · have hrun : rotRunMoves f (m :: rest) s
            = ((rotRunMoves f rest (rotTouchMove f m s).1).1,
               (rotRunMoves f rest (rotTouchMove f m s).1).2) := by
          simp [rotRunMoves, hn]
        obtain ⟨ih1, ih2⟩ := ih (rotTouchMove f m s).1
        rw [hrun]
        constructor
        · rw [ih1, ht]
        · intro i h
          rw [ih2 i h, ht]
      · have hrun : rotRunMoves f (m :: rest) s
            = ((rotRunMoves f rest (rotTouchMove f m s).1).1,
               em :: (rotRunMoves f rest (rotTouchMove f m s).1).2) := by
          simp [rotRunMoves, hs]
        obtain ⟨ih1, ih2⟩ := ih (rotTouchMove f m s).1
        rw [hrun]
        constructor
        · simp only [List.map_cons, List.sum_cons]
          rw [ih1, ht]
          ring
        · intro i h
          cases i with
          | zero =>
              have hget : ((em :: (rotRunMoves f rest
                  (rotTouchMove f m s).1).2).get ⟨0, h⟩) = em := rfl
              simp only [List.take_succ_cons, List.take_zero,
                List.map_cons, List.map_nil, List.sum_cons, List.sum_nil]
              rw [hget, hrot]
              ring
          | succ j =>
              have hj : j < (rotRunMoves f rest (rotTouchMove f m s).1).2.length := by
                have := h
                simp at this
                omega
              have hget : ((em :: (rotRunMoves f rest
                  (rotTouchMove f m s).1).2).get ⟨j + 1, h⟩)
                  = ((rotRunMoves f rest (rotTouchMove f m s).1).2).get ⟨j, hj⟩ := rfl
              simp only [List.take_succ_cons, List.map_cons, List.sum_cons]
              rw [hget, ih2 j hj, ht]
              ring

/-- C5 (counterexample): the claim says a sub-1° delta leaves the state
unchanged, but the handler updates the stored current touch positions
before the sub-1° rejection. A pure translation of both fingers (angle
unchanged, wrapped delta 0 < 1°) emits nothing yet changes the state:
`touch1.currentX` becomes 5 where the claim requires the state to stay
equal to the pre-move state. -/
theorem rotate_subdegree_counterexample :
    (rotTouchMove (fun _ _ => 0) [⟨1, 5, 0⟩, ⟨2, 15, 0⟩]
      ⟨true, ⟨some 1, 0, 0, 0, 0⟩, ⟨some 2, 10, 0, 10, 0⟩, 5, 0, 0, 0, 0⟩).2 = none ∧
    ¬ (rotTouchMove (fun _ _ => 0) [⟨1, 5, 0⟩, ⟨2, 15, 0⟩]
      ⟨true, ⟨some 1, 0, 0, 0, 0⟩, ⟨some 2, 10, 0, 10, 0⟩, 5, 0, 0, 0, 0⟩).1
      = ⟨true, ⟨some 1, 0, 0, 0, 0⟩, ⟨some 2, 10, 0, 10, 0⟩, 5, 0, 0, 0, 0⟩ := by
  constructor
  · norm_num [rotTouchMove, rotMatchTouches, wrapDelta]
  · intro hcontra
    have : (rotTouchMove (fun _ _ => 0) [⟨1, 5, 0⟩, ⟨2, 15, 0⟩]
      ⟨true, ⟨some 1, 0, 0, 0, 0⟩, ⟨some 2, 10, 0, 10, 0⟩, 5, 0, 0, 0, 0⟩).1.touch1.currentX
        = 5 := by
      norm_num [rotTouchMove, rotMatchTouches, wrapDelta]
    rw [hcontra] at this
    norm_num at this

/-- C5 (amended): with both tracked identities matched, each emitted
rotate event's `deltaAngle` is the signed shortest-path difference
between the current and last angle (raw difference > 180° gets 360°
subtracted, < −180° gets 360° added), so for angles in the `atan2`
codomain the delta stays within ±180° and equals the raw difference up
to a multiple of 360°; a wrapped delta below 1° emits no event and
leaves the angle-accumulation state (`lastAngle`, `totalRotation`)
unchanged — though the stored current touch positions are updated; and
over a session started with `totalRotation = 0`, each emitted event's
`rotation` equals the sum of all deltas emitted so far (its own
included). -/
theorem rotate_touch_move_spec (f : ℚ → ℚ → ℚ) (s : RotState) (u1 u2 : TouchIn)
    (ha : s.active = true) (hm1 : s.touch1.id = some u1.id)
    (hm2 : s.touch2.id = some u2.id)
    (hl1 : -180 < s.lastAngle) (hl2 : s.lastAngle ≤ 180)
    (hc1 : -180 < f (u2.y - u1.y) (u2.x - u1.x))
    (hc2 : f (u2.y - u1.y) (u2.x - u1.x) ≤ 180) :
    (∀ em, (rotTouchMove f [u1, u2] s).2 = some em →
      em.deltaAngle = wrapDelta (f (u2.y - u1.y) (u2.x - u1.x) - s.lastAngle) ∧
      -180 ≤ em.deltaAngle ∧ em.deltaAngle ≤ 180 ∧
      (em.deltaAngle = f (u2.y - u1.y) (u2.x - u1.x) - s.lastAngle ∨
       em.deltaAngle = f (u2.y - u1.y) (u2.x - u1.x) - s.lastAngle - 360 ∨
       em.deltaAngle = f (u2.y - u1.y) (u2.x - u1.x) - s.lastAngle + 360)) ∧
    (|wrapDelta (f (u2.y - u1.y) (u2.x - u1.x) - s.lastAngle)| < 1 →
      (rotTouchMove f [u1, u2] s).2 = none ∧
      (rotTouchMove f [u1, u2] s).1.lastAngle = s.lastAngle ∧
      (rotTouchMove f [u1, u2] s).1.totalRotation = s.totalRotation ∧
      (rotTouchMove f [u1, u2] s).1.touch1.currentX = u1.x ∧
      (rotTouchMove f [u1, u2] s).1.touch1.currentY = u1.y ∧
      (rotTouchMove f [u1, u2] s).1.touch2.currentX = u2.x ∧
      (rotTouchMove f [u1, u2] s).1.touch2.currentY = u2.y) ∧
    (∀ (moves : List (List TouchIn)) (s0 : RotState), s0.totalRotation = 0 →
      ∀ i (h : i < (rotRunMoves f moves s0).2.length),
        ((rotRunMoves f moves s0).2.get ⟨i, h⟩).rotation
          = ((((rotRunMoves f moves s0).2).take (i + 1)).map RotEmit.deltaAngle).sum) := by
  have hactive : ¬ s.active = false := by simp [ha]
  have hmatch : rotMatchTouches s u1 u2 = some (u1, u2) := by
    simp [rotMatchTouches, hm1, hm2]
  refine ⟨?_, ?_, ?_⟩
  · intro em hem
    by_cases habs : |wrapDelta (f (u2.y - u1.y) (u2.x - u1.x) - s.lastAngle)| < 1
    · simp [rotTouchMove, hactive, hmatch, habs] at hem
    · simp [rotTouchMove, hactive, hmatch, habs] at hem
      subst hem
      refine ⟨rfl, ?_, ?_, ?_⟩
      · exact (wrapDelta_range _ _ hc1 hc2 hl1 hl2).1
      · exact (wrapDelta_range _ _ hc1 hc2 hl1 hl2).2
      · exact wrapDelta_cases _
  · intro habs
    simp [rotTouchMove, hactive, hmatch, habs]
  · intro moves s0 h0 i h
    have hh := (rotRunMoves_rotation f moves s0).2 i h
    rw [hh, h0, zero_add]

/-- Witness for `rotate_touch_move_spec`: a 90° step from a fresh
two-finger session emits a delta of 90 within the ±180 range. -/
theorem rotate_touch_move_spec_witness :
    (rotTouchMove (fun _ _ => 90) [⟨1, 0, 0⟩, ⟨2, 10, 0⟩]
      ⟨true, ⟨some 1, 0, 0, 0, 0⟩, ⟨some 2, 10, 0, 10, 0⟩, 5, 0, 0, 0, 0⟩).2
      = some ⟨90, 90, 90, 5, 0, 1, 0, 0, 2, 10, 0⟩ ∧
    (-180 : ℚ) ≤ 90 ∧ (90 : ℚ) ≤ 180 := by
  have hem : (rotTouchMove (fun _ _ => 90) [⟨1, 0, 0⟩, ⟨2, 10, 0⟩]
      ⟨true, ⟨some 1, 0, 0, 0, 0⟩, ⟨some 2, 10, 0, 10, 0⟩, 5, 0, 0, 0, 0⟩).2
      = some ⟨90, 90, 90, 5, 0, 1, 0, 0, 2, 10, 0⟩ := by
    norm_num [rotTouchMove, rotMatchTouches, wrapDelta]
  have hspec := (rotate_touch_move_spec (fun _ _ => 90)
    ⟨true, ⟨some 1, 0, 0, 0, 0⟩, ⟨some 2, 10, 0, 10, 0⟩, 5, 0, 0, 0, 0⟩
    ⟨1, 0, 0⟩ ⟨2, 10, 0⟩ rfl rfl rfl (by norm_num) (by norm_num)
    (by norm_num) (by norm_num)).1 ⟨90, 90, 90, 5, 0, 1, 0, 0, 2, 10, 0⟩ hem
  exact ⟨hem, hspec.2.1, hspec.2.2.1⟩


end UPE
